import Mathlib

/-!
Shallow embedding of the financial-analysis notebook
(`notebook/01_financial-analysis-notebook.ipynb`) of the
Ai-financial-advisor repository, together with proofs of the behavioural
properties its specification states.

Modelling conventions:
* A pandas DataFrame row is a `Transaction`; the frame is a `List Transaction`
  in row order.
* Monetary amounts are modelled as exact rationals (`ℚ`); the direction of a
  row is the text of its `Income/Expense` column, as in the source.
* External effects are parameters: the process environment is a partial map
  `String → Option String`, the file system is an existence test plus a CSV
  parse function, the text-generation service is a function from request
  payload to returned completion text, and the PDF rendering engine is a
  function `String → Option String` where `none` models "the engine is
  unavailable or the conversion call fails (raises)".
* The Python string primitives the notebook uses (`str.strip`, `str.lower`,
  `str.replace`) are re-implemented over character lists so that they compute
  by kernel reduction; they follow Python's semantics on the ASCII text the
  notebook manipulates.
-/

/-- One row of the transaction table, columns `Date`, `Description`,
`Category`, `Income/Expense`, `Amount` (see the CSV header and the
`df.info()` output in the notebook). -/
structure Transaction where
  date : String
  description : String
  category : String
  incomeExpense : String
  amount : ℚ
  deriving DecidableEq, Repr

/-- ASCII whitespace as stripped by Python's `str.strip()` (the classifier
responses the notebook strips are ASCII). -/
def isPyWhitespace (c : Char) : Bool :=
  c = ' ' || c = '\t' || c = '\n' || c = '\x0d' || c = '\x0b' || c = '\x0c'

/-- Python `s.strip()` on ASCII text: remove leading and trailing
whitespace. -/
def pyStrip (s : String) : String :=
  (((s.toList.dropWhile isPyWhitespace).reverse.dropWhile isPyWhitespace).reverse).asString

/-- Python `s.lower()` on ASCII text. -/
def pyLower (s : String) : String :=
  (s.toList.map Char.toLower).asString

/-- Left-to-right, non-overlapping replacement of the pattern `p :: ps` by
`repl` in a character list, as Python `str.replace` performs it. The fuel is
the length of the remaining text; at least one character is consumed per
step, so the fuel never runs out when it starts at the text's length. -/
def pyReplaceAux (p : Char) (ps repl : List Char) : Nat → List Char → List Char
  | _, [] => []
  | 0, l => l
  | fuel + 1, c :: rest =>
    if (p :: ps).isPrefixOf (c :: rest) then
      repl ++ pyReplaceAux p ps repl fuel ((c :: rest).drop (p :: ps).length)
    else
      c :: pyReplaceAux p ps repl fuel rest

/-- Python `s.replace(pattern, replacement)`. The notebook only ever replaces
non-empty patterns, so the empty-pattern case never arises. -/
def pyReplace (s pattern replacement : String) : String :=
  match pattern.toList with
  | [] => s
  | p :: ps => (pyReplaceAux p ps replacement.toList s.toList.length s.toList).asString

/-! ## Transaction Classifier (notebook cell 6) -/

/-- `categorize_transaction(description)`: one classification request for one
description. The text-generation service is abstracted as `svc`; the code
stores `completion.choices[0].message.content.strip()`, i.e. the returned
text stripped of leading/trailing whitespace. -/
def categorize_transaction (svc : String → String) (description : String) : String :=
  pyStrip (svc description)

/-- `categorize_transactions(df)`: for every row whose `Category` is `''`,
set its `Category` to the classification of its `Description`. The Python
loop iterates over the filtered view `df[df['Category'] == '']` (computed
before any mutation) and each `df.at[index, 'Category'] = category` update
touches only its own row, so the pass is a positional map over the rows. -/
def categorize_transactions (svc : String → String) (df : List Transaction) :
    List Transaction :=
  df.map fun t =>
    if t.category = "" then
      { t with category := categorize_transaction svc t.description }
    else t

/-! ## Aggregator (notebook cell 8, the three aggregate lines of
`generate_financial_summary`) -/

/-- The rows selected by `df[df['Income/Expense'] == 'Expense']`. -/
def expenseRows (df : List Transaction) : List Transaction :=
  df.filter fun t => t.incomeExpense = "Expense"

/-- `total_spent = df[df['Income/Expense'] == 'Expense']['Amount'].sum()`. -/
def total_spent (df : List Transaction) : ℚ :=
  ((expenseRows df).map Transaction.amount).sum

/-- `total_income = df[df['Income/Expense'] == 'Income']['Amount'].sum()`. -/
def total_income (df : List Transaction) : ℚ :=
  ((df.filter fun t => t.incomeExpense = "Income").map Transaction.amount).sum

/-- Sum of the amounts of the rows of `l` whose `Category` is `c` (one group
of a `groupby('Category')['Amount'].sum()`). -/
def fiberSum (l : List Transaction) (c : String) : ℚ :=
  ((l.filter fun t => t.category = c).map Transaction.amount).sum

/-- `category_spending = df[df['Income/Expense'] ==
'Expense'].groupby('Category')['Amount'].sum()`: one entry per distinct
`Category` value among the expense rows, mapping it to its group's summed
amount. pandas lists the group keys sorted; the association list here lists
each distinct key exactly once, and the key order is immaterial to every
property stated below. -/
def category_spending (df : List Transaction) : List (String × ℚ) :=
  (((expenseRows df).map Transaction.category).dedup).map fun c =>
    (c, fiberSum (expenseRows df) c)

/-- The three aggregate figures computed by `generate_financial_summary`
before it builds the prompt. -/
def financial_aggregates (df : List Transaction) : ℚ × ℚ × List (String × ℚ) :=
  (total_income df, total_spent df, category_spending df)

/-- One Aggregator run: it reads the transaction sequence and returns the
aggregate figures; the sequence itself is only read, never written
(`generate_financial_summary` performs no assignment into `df`). -/
def aggregator_run (df : List Transaction) :
    (ℚ × ℚ × List (String × ℚ)) × List Transaction :=
  (financial_aggregates df, df)

/-! ## Data Loader (notebook cell 4) -/

inductive LoadError where
  | fileNotFound
  deriving DecidableEq, Repr

/-- The path `load_from_csv` expects, `'../data/data.csv'`. -/
def csv_path : String := "../data/data.csv"

/-- `load_from_csv()`: raise `FileNotFoundError` when `os.path.exists` is
false at the expected path, otherwise parse the file with `pd.read_csv`.
`pathExists` models the existence test and `readCsv` the parse; a raised
error is an `Except.error`, which carries no transaction sequence. -/
def load_from_csv (pathExists : String → Bool)
    (readCsv : String → List Transaction) : Except LoadError (List Transaction) :=
  if pathExists csv_path then .ok (readCsv csv_path) else .error .fileNotFound

/-- The condition `os.getenv("USE_GOOGLE_SHEETS", "false").lower() ==
"true"` of `load_data`. -/
def useGoogleSheetsFlag (env : String → Option String) : Bool :=
  pyLower ((env "USE_GOOGLE_SHEETS").getD "false") = "true"

/-- `load_data()`: consult the remote sheet exactly when the flag selects it,
otherwise the local CSV file. `googleSheetsResult` abstracts
`load_from_google_sheets()`, whose body is entirely calls into the external
spreadsheet service (authenticate, open by URL, fetch all records). -/
def load_data (env : String → Option String)
    (googleSheetsResult : Except LoadError (List Transaction))
    (pathExists : String → Bool) (readCsv : String → List Transaction) :
    Except LoadError (List Transaction) :=
  if useGoogleSheetsFlag env then googleSheetsResult
  else load_from_csv pathExists readCsv

/-! ## Setup cell (notebook cell 2): API-key check -/

inductive ConfigError where
  | missingApiKey
  deriving DecidableEq, Repr

/-- The setup cell: `openai.api_key = os.getenv("OPENAI_API_KEY")` followed
by `if not openai.api_key: raise ValueError(...)`. Python's `not` is true
both when the variable is absent (`None`) and when it is the empty string. -/
def setupApiKey (env : String → Option String) : Except ConfigError String :=
  match env "OPENAI_API_KEY" with
  | none => .error .missingApiKey
  | some k => if k = "" then .error .missingApiKey else .ok k

/-! ## Report Renderer (notebook cell 13, `create_pdf_report`) -/

/-- The fixed HTML template of `create_pdf_report` up to the `{0}` slot that
receives the summary text (Python `str.format` semantics: `\x7b\x7b` and
`\x7d\x7d` denote literal braces). -/
def html_template_head : String :=
  "\n    <!DOCTYPE html>\n    <html>\n    <head>\n        <meta charset=\"UTF-8\">\n        <title>Financial Report</title>\n        <style>\n            body \x7b font-family: Arial, sans-serif; line-height: 1.6; color: #333; \x7d\n            h1 \x7b color: #2c3e50; text-align: center; \x7d\n            h2 \x7b color: #34495e; \x7d\n            h3 \x7b color: #2980b9; \x7d\n            .section \x7b margin-bottom: 20px; \x7d\n            ul \x7b padding-left: 20px; \x7d\n        </style>\n    </head>\n    <body>\n        <h1>Financial Report</h1>\n        \n        <div class=\"section\">\n            <h2>Financial Summary</h2>\n            "

/-- The template between the `{0}` slot (summary) and the `{1}` slot
(advice). -/
def html_template_mid : String :=
  "\n        </div>\n        \n        <div class=\"section\">\n            <h2>Personalized Financial Advice</h2>\n            "

/-- The template after the `{1}` slot. -/
def html_template_tail : String :=
  "\n        </div>\n    </body>\n    </html>\n    "

/-- The `html_content` string built by `create_pdf_report`: the template with
`summary.replace('**', '').replace('###', '<h3>').replace('\n', '<br>')`
interpolated at `{0}` and the same chain applied to `advice` at `{1}`. -/
def html_content (summary advice : String) : String :=
  html_template_head
    ++ pyReplace (pyReplace (pyReplace summary "**" "") "###" "<h3>") "\n" "<br>"
    ++ html_template_mid
    ++ pyReplace (pyReplace (pyReplace advice "**" "") "###" "<h3>") "\n" "<br>"
    ++ html_template_tail

/-- The three substitutions exactly as the specification words them: every
occurrence of the bold-marker token `**` is removed, every occurrence of the
heading-marker token `###` becomes the heading tag `<h3>`, and every line
break becomes the line-break tag `<br>`. -/
def spec_substitutions (s : String) : String :=
  pyReplace (pyReplace (pyReplace s "**" "") "###" "<h3>") "\n" "<br>"

inductive RenderError where
  | renderFailed
  deriving DecidableEq, Repr

/-- `create_pdf_report(summary, advice, output_path)`: build `html_content`
and hand it to the external rendering engine (`pdfkit.from_string`), which
either writes the document at `output_path` or raises. The file system is a
map from path to contents; on failure the code performs no write, so the
file system is returned unchanged. -/
def create_pdf_report (render : String → Option String) (summary advice : String)
    (output_path : String) (fs : String → Option String) :
    Except RenderError Unit × (String → Option String) :=
  match render (html_content summary advice) with
  | none => (.error .renderFailed, fs)
  | some pdf => (.ok (), fun p => if p = output_path then some pdf else fs p)

/-! ## The whole pipeline, in notebook cell order -/

inductive PipelineError where
  | config : ConfigError → PipelineError
  | data : LoadError → PipelineError
  | render : RenderError → PipelineError

/-- The notebook executed top to bottom: setup-cell API-key check, then
`load_data`, `categorize_transactions`, the aggregates, the summary and
advice completions (abstracted as `summarySvc`/`adviceSvc`, each one blocking
service call on the data shown), and finally `create_pdf_report` at the
default output path. The result is the final file-system state. -/
def run_pipeline (env : String → Option String)
    (googleSheetsResult : Except LoadError (List Transaction))
    (pathExists : String → Bool) (readCsv : String → List Transaction)
    (classifySvc : String → String)
    (summarySvc : ℚ × ℚ × List (String × ℚ) → String)
    (adviceSvc : List Transaction → String)
    (render : String → Option String) (fs : String → Option String) :
    Except PipelineError (String → Option String) :=
  match setupApiKey env with
  | .error e => .error (.config e)
  | .ok _ =>
    match load_data env googleSheetsResult pathExists readCsv with
    | .error e => .error (.data e)
    | .ok df0 =>
      let df := categorize_transactions classifySvc df0
      let summary := summarySvc (financial_aggregates df)
      let advice := adviceSvc df
      match create_pdf_report render summary advice "financial_report.pdf" fs with
      | (.error e, _) => .error (.render e)
      | (.ok _, fsOut) => .ok fsOut

/-! ## Concrete data for evaluating the definitions -/

/-- A classification service that always answers with a bare label. -/
def wSvc : String → String := fun _ => "Groceries"

/-- A classification service whose completion text carries surrounding
whitespace around the label. -/
def wSvcSpaced : String → String := fun _ => " Groceries "

/-- A row that still lacks a category (its `Category` cell is `''`). -/
def wRowEmpty : Transaction :=
  { date := "2024-09-02", description := "Grocery shopping at Coles",
    category := "", incomeExpense := "Expense", amount := 200 }

/-- A row whose category was already filled in the input data. -/
def wRowFilled : Transaction :=
  { date := "2024-09-01", description := "Salary from ABC Corp",
    category := "Income", incomeExpense := "Income", amount := 6000 }

def wDf : List Transaction := [wRowFilled, wRowEmpty]

/-- The image of `wRowEmpty` under the classification pass with `wSvc` (and
also with `wSvcSpaced`, whose response strips to the same label). -/
def wRowEmptyOut : Transaction :=
  { wRowEmpty with category := "Groceries" }

def wEnvSheets : String → Option String :=
  fun k => if k = "USE_GOOGLE_SHEETS" then some "True" else none

def wEnvEmpty : String → Option String := fun _ => none

def wSheetData : Except LoadError (List Transaction) := .ok []

def wNoFile : String → Bool := fun _ => false

def wReadCsv : String → List Transaction := fun _ => []

def wRender : String → Option String := fun _ => none

def wFs : String → Option String := fun _ => none

/-! ## Helper lemmas -/

lemma fiberSum_cons (x : Transaction) (l : List Transaction) (c : String) :
    fiberSum (x :: l) c = (if x.category = c then x.amount else 0) + fiberSum l c := by
  by_cases h : x.category = c <;> simp [fiberSum, List.filter_cons, h]

lemma sum_map_add_distrib {α : Type} (f g : α → ℚ) (l : List α) :
    (l.map fun c => f c + g c).sum = (l.map f).sum + (l.map g).sum := by
  induction l with
  | nil => simp
  | cons x xs ih => simp [ih]; ring

lemma sum_map_ite_not_mem {l : List String} {a : String} (ha : a ∉ l) (v : ℚ) :
    (l.map fun c => if a = c then v else 0).sum = 0 := by
  induction l with
  | nil => simp
  | cons x xs ih =>
    have hax : a ≠ x := fun h => ha (h ▸ List.mem_cons_self x xs)
    have hxs : a ∉ xs := fun h => ha (List.mem_cons_of_mem _ h)
    simp [hax, ih hxs]

lemma sum_map_ite_mem {l : List String} (hnd : l.Nodup) {a : String}
    (ha : a ∈ l) (v : ℚ) :
    (l.map fun c => if a = c then v else 0).sum = v := by
  induction l with
  | nil => cases ha
  | cons x xs ih =>
    rcases List.mem_cons.mp ha with h | h
    · subst h
      have hax : a ∉ xs := (List.nodup_cons.mp hnd).1
      simp [sum_map_ite_not_mem hax v]
    · have hax : a ≠ x := fun hab => (List.nodup_cons.mp hnd).1 (hab ▸ h)
      simp [hax, ih (List.nodup_cons.mp hnd).2 h]

/-- Grouping a transaction list by category and summing each group recovers
the sum of all amounts. -/
lemma sum_fiberSums (l : List Transaction) :
    (((l.map Transaction.category).dedup).map fun c => fiberSum l c).sum
      = (l.map Transaction.amount).sum := by
  induction l with
  | nil => simp
  | cons x xs ih =>
    have hsplit :
        (((x :: xs).map Transaction.category).dedup).map (fun c => fiberSum (x :: xs) c)
          = (((x :: xs).map Transaction.category).dedup).map
              (fun c => (if x.category = c then x.amount else 0) + fiberSum xs c) := by
      simp only [fiberSum_cons]
    by_cases hx : x.category ∈ xs.map Transaction.category
    · rw [hsplit, List.map_cons, List.dedup_cons_of_mem hx, sum_map_add_distrib,
        sum_map_ite_mem (List.nodup_dedup _) (List.mem_dedup.mpr hx), ih,
        List.map_cons, List.sum_cons]
    · have hfib : fiberSum xs x.category = 0 := by
        have hnil : xs.filter (fun t => t.category = x.category) = [] := by
          rw [List.filter_eq_nil_iff]
          intro t ht hcat
          exact hx (List.mem_map.mpr ⟨t, ht, by simpa using hcat⟩)
        simp [fiberSum, hnil]
      have hnd : x.category ∉ (xs.map Transaction.category).dedup :=
        fun h => hx (List.mem_dedup.mp h)
      rw [hsplit, List.map_cons, List.dedup_cons_of_not_mem hx, List.map_cons,
        List.sum_cons, sum_map_add_distrib, sum_map_ite_not_mem hnd x.amount,
        hfib, ih, List.map_cons, List.sum_cons]
      simp

/-- Any pair taken from a list zipped with its own image under a map relates
the element to its image. -/
lemma zip_map_pair {α β : Type} (f : α → β) (l : List α) (p : α × β)
    (hp : p ∈ l.zip (l.map f)) : p.2 = f p.1 := by
  have h : l.zip (l.map f) = l.map fun a => (a, f a) := by
    have h0 := List.zip_map' id f l
    rwa [List.map_id] at h0
  rw [h] at hp
  rcases List.mem_map.mp hp with ⟨a, _, rfl⟩
  rfl

/-! ## Claims -/

/-- C1: for every transaction sequence, the Aggregator's total expense is the
sum of the `Amount` of the rows whose `Income/Expense` flag is `'Expense'`,
its total income is the sum of the `Amount` of the rows whose flag is
`'Income'`, and the per-category map (expense rows grouped by `Category`,
amounts summed per group) sums, over all its entries, to the total
expense. -/
theorem aggregator_totals_and_category_consistency (df : List Transaction) :
    total_spent df
        = ((df.filter fun t => t.incomeExpense = "Expense").map Transaction.amount).sum
      ∧ total_income df
        = ((df.filter fun t => t.incomeExpense = "Income").map Transaction.amount).sum
      ∧ ((category_spending df).map Prod.snd).sum = total_spent df := by
  refine ⟨rfl, rfl, ?_⟩
  have h : (category_spending df).map Prod.snd
      = (((expenseRows df).map Transaction.category).dedup).map
          (fun c => fiberSum (expenseRows df) c) := by
    simp [category_spending, List.map_map, Function.comp]
  rw [h, sum_fiberSums]
  rfl

/-- C9: the Aggregator is idempotent and deterministic. A run reads the
transaction sequence and leaves it unchanged, so a second run on the sequence
left by the first yields identical total income, total expense, and
per-category map. -/
theorem aggregator_idempotent_deterministic (df : List Transaction) :
    (aggregator_run ((aggregator_run df).2)).1 = (aggregator_run df).1
      ∧ (aggregator_run ((aggregator_run df).2)).2 = df :=
  ⟨rfl, rfl⟩

/-- C2: after one classification pass, a row whose category was non-empty
keeps it unchanged, and a row whose category was empty has some non-empty
category, assuming every service call succeeds and returns a label (here: a
completion whose stripped text is non-empty). Rows are paired positionally
with their images under the pass. -/
theorem classifier_pass_category_fields (svc : String → String)
    (df : List Transaction) (hsvc : ∀ d, pyStrip (svc d) ≠ "")
    (p : Transaction × Transaction)
    (hp : p ∈ df.zip (categorize_transactions svc df)) :
    (p.1.category ≠ "" → p.2.category = p.1.category)
      ∧ (p.1.category = "" → p.2.category ≠ "") := by
  have h2 := zip_map_pair _ df p hp
  by_cases hc : p.1.category = ""
  · refine ⟨fun h => absurd hc h, fun _ => ?_⟩
    rw [h2]
    simpa [hc, categorize_transaction] using hsvc p.1.description
  · refine ⟨fun _ => ?_, fun h => absurd h hc⟩
    rw [h2]
    simp [hc]

theorem classifier_pass_category_fields_witness :
    (wRowEmpty.category ≠ "" → wRowEmptyOut.category = wRowEmpty.category)
      ∧ (wRowEmpty.category = "" → wRowEmptyOut.category ≠ "") :=
  classifier_pass_category_fields wSvc wDf
    (by intro d; show pyStrip "Groceries" ≠ ""; decide)
    (wRowEmpty, wRowEmptyOut) (by decide)

/-- C3, counterexample: the claim says the returned label is stored verbatim
with no alteration, but the code stores `content.strip()`. With a service
response of `' Groceries '` the stored category is `'Groceries'`, not the
returned text. -/
theorem classifier_stores_label_verbatim_counterexample :
    (categorize_transactions wSvcSpaced [wRowEmpty]).map Transaction.category
      ≠ [wSvcSpaced wRowEmpty.description] := by
  decide

/-- C3, amended: for every transaction with an empty category and every
service response for its description, the Classifier stores the response
stripped of leading and trailing whitespace (Python `str.strip()`), with no
validation against the allowed category set and no other alteration — the
statement holds for arbitrary `svc`, including responses outside the allowed
label set. -/
theorem classifier_stores_stripped_label (svc : String → String)
    (df : List Transaction) (p : Transaction × Transaction)
    (hp : p ∈ df.zip (categorize_transactions svc df))
    (hc : p.1.category = "") :
    p.2.category = pyStrip (svc p.1.description) := by
  have h2 := zip_map_pair _ df p hp
  rw [h2]
  simp [hc, categorize_transaction]

theorem classifier_stores_stripped_label_witness :
    wRowEmptyOut.category = pyStrip (wSvcSpaced wRowEmpty.description) :=
  classifier_stores_stripped_label wSvcSpaced [wRowEmpty]
    (wRowEmpty, wRowEmptyOut) (by decide) rfl

/-- C10: the classification pass modifies only the `Category` field: the
number of rows is unchanged, and each row — paired positionally with its
image, so order is preserved — keeps its `Date`, `Description`,
`Income/Expense` flag and `Amount`. -/
theorem classifier_frame (svc : String → String) (df : List Transaction) :
    (categorize_transactions svc df).length = df.length
      ∧ ∀ p ∈ df.zip (categorize_transactions svc df),
          p.2.date = p.1.date ∧ p.2.description = p.1.description
            ∧ p.2.incomeExpense = p.1.incomeExpense ∧ p.2.amount = p.1.amount := by
  refine ⟨by simp [categorize_transactions], ?_⟩
  intro p hp
  have h2 := zip_map_pair _ df p hp
  by_cases hc : p.1.category = "" <;> rw [h2] <;> simp [hc]

theorem classifier_frame_witness :
    wRowEmptyOut.date = wRowEmpty.date
      ∧ wRowEmptyOut.description = wRowEmpty.description
      ∧ wRowEmptyOut.incomeExpense = wRowEmpty.incomeExpense
      ∧ wRowEmptyOut.amount = wRowEmpty.amount :=
  (classifier_frame wSvc wDf).2 (wRowEmpty, wRowEmptyOut) (by decide)

/-- C5: when the expected CSV path is absent, `load_from_csv` fails with the
not-found error; the error carries no transaction sequence, so no partial
result is produced. -/
theorem load_from_csv_missing_file (pathExists : String → Bool)
    (readCsv : String → List Transaction) (h : pathExists csv_path = false) :
    load_from_csv pathExists readCsv = .error .fileNotFound := by
  simp [load_from_csv, h]

theorem load_from_csv_missing_file_witness :
    load_from_csv wNoFile wReadCsv = .error .fileNotFound :=
  load_from_csv_missing_file wNoFile wReadCsv rfl

/-- C8: `load_data` produces the sequence from exactly one source: when the
boolean flag selects the remote sheet it returns the remote-sheet result, and
otherwise — in particular when the flag is unset in the environment — it
returns the local-file result; the result never depends on both sources. -/
theorem load_data_single_source (env : String → Option String)
    (gs : Except LoadError (List Transaction)) (pathExists : String → Bool)
    (readCsv : String → List Transaction) :
    (useGoogleSheetsFlag env = true →
        load_data env gs pathExists readCsv = gs)
      ∧ (useGoogleSheetsFlag env = false →
        load_data env gs pathExists readCsv = load_from_csv pathExists readCsv)
      ∧ (env "USE_GOOGLE_SHEETS" = none →
        load_data env gs pathExists readCsv = load_from_csv pathExists readCsv) := by
  refine ⟨fun h => by simp [load_data, h], fun h => by simp [load_data, h],
    fun h => ?_⟩
  have hf : useGoogleSheetsFlag env = false := by
    unfold useGoogleSheetsFlag
    rw [h]
    decide
  simp [load_data, hf]

theorem load_data_single_source_witness :
    load_data wEnvSheets wSheetData wNoFile wReadCsv = wSheetData
      ∧ load_data wEnvEmpty wSheetData wNoFile wReadCsv
        = load_from_csv wNoFile wReadCsv :=
  ⟨(load_data_single_source wEnvSheets wSheetData wNoFile wReadCsv).1 (by decide),
    (load_data_single_source wEnvEmpty wSheetData wNoFile wReadCsv).2.2 rfl⟩

/-- C6: if the API key is absent from the environment, the run fails with the
fatal configuration error. The conclusion holds for every possible behaviour
of the data sources, the classification / summary / advice services and the
renderer, so the failure is raised before any pipeline work contributes to
the outcome. -/
theorem run_pipeline_missing_api_key (env : String → Option String)
    (gs : Except LoadError (List Transaction)) (pathExists : String → Bool)
    (readCsv : String → List Transaction) (classifySvc : String → String)
    (summarySvc : ℚ × ℚ × List (String × ℚ) → String)
    (adviceSvc : List Transaction → String) (render : String → Option String)
    (fs : String → Option String) (h : env "OPENAI_API_KEY" = none) :
    run_pipeline env gs pathExists readCsv classifySvc summarySvc adviceSvc
        render fs
      = .error (.config .missingApiKey) := by
  simp [run_pipeline, setupApiKey, h]

theorem run_pipeline_missing_api_key_witness :
    run_pipeline wEnvEmpty wSheetData wNoFile wReadCsv wSvc (fun _ => "")
        (fun _ => "") wRender wFs
      = .error (.config .missingApiKey) :=
  run_pipeline_missing_api_key wEnvEmpty wSheetData wNoFile wReadCsv wSvc
    (fun _ => "") (fun _ => "") wRender wFs rfl

/-- C7: when the rendering engine is unavailable or the conversion call
fails, `create_pdf_report` fails with the fatal render error and the file
system is returned exactly as it was: no output document is created or
overwritten and no partial output is retained. -/
theorem create_pdf_report_render_failure (render : String → Option String)
    (summary advice output_path : String) (fs : String → Option String)
    (h : render (html_content summary advice) = none) :
    create_pdf_report render summary advice output_path fs
      = (.error .renderFailed, fs) := by
  simp [create_pdf_report, h]

theorem create_pdf_report_render_failure_witness :
    create_pdf_report wRender "summary" "advice" "financial_report.pdf" wFs
      = (.error .renderFailed, wFs) :=
  create_pdf_report_render_failure wRender "summary" "advice"
    "financial_report.pdf" wFs rfl

/-- C4: for every pair of summary and advice strings, the HTML handed to the
renderer is the fixed template with each of the two strings interpolated
after exactly the three literal substitutions the specification names: every
`**` removed, every `###` turned into the heading tag `<h3>`, every line
break turned into `<br>`. -/
theorem renderer_three_substitutions (summary advice : String) :
    html_content summary advice
      = html_template_head ++ spec_substitutions summary ++ html_template_mid
        ++ spec_substitutions advice ++ html_template_tail :=
  rfl
